import Mathlib

/-!
Verification of the Elevatr front-end prediction workflow.

The embedding models, faithfully to the JavaScript source:
- the nine-field student profile held in StudentForm state
  (frontend/src/components/StudentForm.jsx);
- validateForm and handleSubmit from StudentForm.jsx;
- handlePredict, handleReset and the results-panel rendering from App.jsx,
  split into the synchronous start of a submission (submitRequested) and
  the continuation that runs when the fetch settles (requestCompleted);
- the pure view classifiers getGradeDescription (ResultCard),
  getRiskConfig (RiskBadge.jsx), getImpactWidth (FeatureChart), and the
  empty-data guards of RecommendationList.jsx and FeatureChart.

JavaScript numbers are modelled as rationals; JavaScript truthiness of a
string (s || d) is modelled as an emptiness test, which is exact for the
string values that occur here.
-/

/-- The nine formData fields of StudentForm.jsx (lines 61-71). -/
structure StudentProfile where
  age : ℚ
  gender : String
  study_hours_weekly : ℚ
  attendance_percent : ℚ
  previous_gpa : ℚ
  assignments_completed : ℚ
  participation_score : ℚ
  midterm_score : ℚ
  hours_on_platform : ℚ
deriving DecidableEq

/-- A parsed success-response body: the fields App.jsx reads from the
prediction result. feature_impacts is the JSON object as an entry list. -/
structure PredictionResult where
  predicted_grade : String
  confidence : ℚ
  risk_level : String
  risk_score : ℚ
  recommendations : List String
  feature_impacts : List (String × String)
deriving DecidableEq

/-- The three useState cells of App.jsx: prediction, loading, error. -/
structure AppState where
  prediction : Option PredictionResult
  loading : Bool
  error : Option String
deriving DecidableEq

/-- Initial App state: useState(null), useState(false), useState(null). -/
def initState : AppState := ⟨none, false, none⟩

/-- validateForm from StudentForm.jsx lines 92-106: four range checks in
fixed order, first failing message returned, null when all pass. The five
remaining fields are never inspected. -/
def validateForm (f : StudentProfile) : Option String :=
  if f.age < 18 ∨ f.age > 25 then
    some "Age must be between 18-25"
  else if f.study_hours_weekly < 5 ∨ f.study_hours_weekly > 40 then
    some "Study hours must be between 5-40"
  else if f.previous_gpa < 5 ∨ f.previous_gpa > 10 then
    some "Previous GPA must be between 5.0-10.0"
  else if f.hours_on_platform < 10 ∨ f.hours_on_platform > 200 then
    some "Platform hours must be between 10-200"
  else
    none

/-- How the single fetch of handlePredict settles, as observed by the code:
a 2xx response with a parsed body; a non-2xx response whose parsed JSON body
has an optional error field (App.jsx lines 28-31); or a transport failure
(fetch rejection or JSON parse failure) carrying the exception message. -/
inductive FetchOutcome where
  | ok (result : PredictionResult)
  | httpError (errorField : Option String)
  | transportError (message : String)
deriving DecidableEq

/-- JavaScript (s || d) for an optional string field: the fallback is used
when the field is absent or the empty string (falsy). -/
def jsOrString (v : Option String) (d : String) : String :=
  match v with
  | some s => if s = "" then d else s
  | none => d

/-- The synchronous part of one submit click. The button has
disabled(loading) (StudentForm.jsx line 308), so a click while loading is
true fires no handler: state is unchanged and no request is issued.
Otherwise handleSubmit (lines 111-118) runs validateForm; on failure it
reports the message via onError and returns without calling onSubmit; on
success handlePredict (App.jsx lines 17-19) sets loading and clears the
error as the fetch is issued. The Bool records whether a request was
issued. -/
def submitRequested (s : AppState) (p : StudentProfile) : AppState × Bool :=
  if s.loading then
    (s, false)
  else
    match validateForm p with
    | some msg => ({ s with error := some msg }, false)
    | none => ({ s with loading := true, error := none }, true)

/-- The continuation of handlePredict once the fetch settles (App.jsx
lines 28-39). On ok, the result is stored. On a non-2xx response the thrown
message errorData.error or the literal is caught and stored as the error.
On a transport failure the catch stores err.message, falling back to the
connectivity literal only when the message is falsy. The finally clause
clears loading in every case. Note the catch never touches prediction. -/
def requestCompleted (s : AppState) (o : FetchOutcome) : AppState :=
  let s2 :=
    match o with
    | FetchOutcome.ok result => { s with prediction := some result }
    | FetchOutcome.httpError errorField =>
        { s with error := some (jsOrString errorField "Prediction failed") }
    | FetchOutcome.transportError message =>
        { s with error := some (jsOrString (some message) "Failed to connect to API") }
  { s2 with loading := false }

/-- handleReset from App.jsx lines 260-264: clears prediction and error. -/
def handleReset (s : AppState) : AppState :=
  { s with prediction := none, error := none }

/-- What the results column of App.jsx renders (lines 406-498): the loading
skeleton while loading, the result cards when a prediction is stored, and
the landing card otherwise. -/
inductive ResultsView where
  | skeleton
  | results (p : PredictionResult)
  | landing
deriving DecidableEq

/-- The rendering decision of the results column. -/
def renderResults (s : AppState) : ResultsView :=
  if s.loading then
    ResultsView.skeleton
  else
    match s.prediction with
    | some p => ResultsView.results p
    | none => ResultsView.landing

/-- Events driving the controller: a submit click, or the settling of the
in-flight fetch. A completion is only meaningful while a request is in
flight, that is while loading is true; a stray completion is ignored. -/
inductive AppEvent where
  | submit (p : StudentProfile)
  | complete (o : FetchOutcome)

/-- One step of the controller, tracking in the second component the number
of requests currently in flight: a submit that issues a request adds one,
a completion of the in-flight request removes one. -/
def runStep : AppState × Nat → AppEvent → AppState × Nat
  | (s, n), AppEvent.submit p =>
      ((submitRequested s p).1, n + (if (submitRequested s p).2 then 1 else 0))
  | (s, n), AppEvent.complete o =>
      if s.loading then (requestCompleted s o, n - 1) else (s, n)

/-- Run an event sequence from the initial App state with no request in
flight. -/
def runEvents (events : List AppEvent) : AppState × Nat :=
  events.foldl runStep (initState, 0)

/-- An in-range concrete profile, the "High Performer" sample of
StudentForm.jsx lines 5-18 with its GPA rounded to an integer so that the
rational comparisons evaluate by kernel reduction. -/
def inRangeProfile : StudentProfile :=
  { age := 21, gender := "F", study_hours_weekly := 32,
    attendance_percent := 95, previous_gpa := 9,
    assignments_completed := 98, participation_score := 90,
    midterm_score := 92, hours_on_platform := 150 }

/-- The default formData of StudentForm.jsx with age set to 17. -/
def profileAge17 : StudentProfile :=
  { age := 17, gender := "M", study_hours_weekly := 20,
    attendance_percent := 80, previous_gpa := 7.5,
    assignments_completed := 80, participation_score := 70,
    midterm_score := 75, hours_on_platform := 100 }

/-- A concrete stored result, the end-to-end example values. -/
def sampleResult : PredictionResult :=
  { predicted_grade := "A", confidence := 0.91, risk_level := "low",
    risk_score := 12, recommendations := ["Keep attending regularly"],
    feature_impacts := [("study_hours_weekly", "strong_positive")] }

/-- getGradeDescription from the ResultCard component (the descriptions
table with the generic fallback for an unknown key). Every table value is a
nonempty string, so the JavaScript (table[grade] || fallback) lookup is
exactly a key-presence test. -/
def getGradeDescription (grade : String) : String :=
  if grade = "S" then "Outstanding Performance"
  else if grade = "A" then "Excellent Work"
  else if grade = "B" then "Good Performance"
  else if grade = "C" then "Satisfactory"
  else if grade = "D" then "Needs Improvement"
  else if grade = "F" then "Requires Intervention"
  else "Grade Predicted"

/-- getImpactWidth from FeatureChart (lines 30-39): widths table with
fallback 40. Every table value is nonzero, so (widths[impact] || 40) is
exactly a key-presence test. -/
def getImpactWidth (impact : String) : Nat :=
  if impact = "strong_positive" then 100
  else if impact = "positive" then 70
  else if impact = "neutral" then 40
  else if impact = "negative" then 70
  else if impact = "strong_negative" then 100
  else 40

/-- One entry of the configs table of RiskBadge.jsx; the icon component
reference is modelled by its name. -/
structure RiskConfig where
  icon : String
  color : String
  bg : String
  dotColor : String
  label : String
  description : String
deriving DecidableEq

/-- The low entry of the configs table (RiskBadge.jsx lines 18-25). -/
def lowRiskConfig : RiskConfig :=
  { icon := "CheckCircle", color := "text-green-600",
    bg := "bg-green-50 border-green-200", dotColor := "bg-green-500",
    label := "Low Risk", description := "Student is performing well" }

/-- The medium entry of the configs table (RiskBadge.jsx lines 26-33). -/
def mediumRiskConfig : RiskConfig :=
  { icon := "AlertCircle", color := "text-yellow-600",
    bg := "bg-yellow-50 border-yellow-200", dotColor := "bg-yellow-500",
    label := "Medium Risk", description := "Monitor student progress" }

/-- The high entry of the configs table (RiskBadge.jsx lines 34-41). -/
def highRiskConfig : RiskConfig :=
  { icon := "AlertTriangle", color := "text-red-600",
    bg := "bg-red-50 border-red-200", dotColor := "bg-red-500",
    label := "High Risk", description := "Intervention recommended" }

/-- getRiskConfig from RiskBadge.jsx lines 16-44:
(configs[riskLevel] || configs[medium]); every table value is an object
(truthy), so the lookup is exactly a key-presence test. -/
def getRiskConfig (riskLevel : String) : RiskConfig :=
  if riskLevel = "low" then lowRiskConfig
  else if riskLevel = "medium" then mediumRiskConfig
  else if riskLevel = "high" then highRiskConfig
  else mediumRiskConfig

/-- What RecommendationList renders: the dedicated no-data card or the
populated list. -/
inductive RecListView where
  | fallbackCard
  | list (recs : List String)
deriving DecidableEq

/-- The empty guard of RecommendationList.jsx lines 58-70: when the prop is
absent or null (modelled none) or the array is empty, the no-data card is
rendered; otherwise the list. -/
def renderRecommendationList (recommendations : Option (List String)) : RecListView :=
  match recommendations with
  | none => RecListView.fallbackCard
  | some recs =>
      if recs.length = 0 then RecListView.fallbackCard else RecListView.list recs

/-- What FeatureChart renders: the dedicated no-data card or the bar
chart over the impact entries. -/
inductive FeatureChartView where
  | fallbackCard
  | chart (entries : List (String × String))
deriving DecidableEq

/-- The empty guard of FeatureChart lines 61-73: when the impacts prop is
absent or null (modelled none) or the object has no keys, the no-data card
is rendered; otherwise the chart. -/
def renderFeatureChart (impacts : Option (List (String × String))) : FeatureChartView :=
  match impacts with
  | none => FeatureChartView.fallbackCard
  | some entries =>
      if entries.length = 0 then FeatureChartView.fallbackCard
      else FeatureChartView.chart entries

/-- Claim C3: validateForm checks exactly the four rules age in [18,25],
study_hours_weekly in [5,40], previous_gpa in [5.0,10.0] and
hours_on_platform in [10,200], in that fixed order, returning the first
failing rule message; it returns success when all four are in range; and it
never inspects the remaining five fields (two profiles agreeing on the four
checked fields validate identically). -/
theorem validateForm_spec :
    (∀ p : StudentProfile, (p.age < 18 ∨ p.age > 25) →
        validateForm p = some "Age must be between 18-25") ∧
    (∀ p : StudentProfile, ¬(p.age < 18 ∨ p.age > 25) →
        (p.study_hours_weekly < 5 ∨ p.study_hours_weekly > 40) →
        validateForm p = some "Study hours must be between 5-40") ∧
    (∀ p : StudentProfile, ¬(p.age < 18 ∨ p.age > 25) →
        ¬(p.study_hours_weekly < 5 ∨ p.study_hours_weekly > 40) →
        (p.previous_gpa < 5 ∨ p.previous_gpa > 10) →
        validateForm p = some "Previous GPA must be between 5.0-10.0") ∧
    (∀ p : StudentProfile, ¬(p.age < 18 ∨ p.age > 25) →
        ¬(p.study_hours_weekly < 5 ∨ p.study_hours_weekly > 40) →
        ¬(p.previous_gpa < 5 ∨ p.previous_gpa > 10) →
        (p.hours_on_platform < 10 ∨ p.hours_on_platform > 200) →
        validateForm p = some "Platform hours must be between 10-200") ∧
    (∀ p : StudentProfile,
        18 ≤ p.age → p.age ≤ 25 →
        5 ≤ p.study_hours_weekly → p.study_hours_weekly ≤ 40 →
        5 ≤ p.previous_gpa → p.previous_gpa ≤ 10 →
        10 ≤ p.hours_on_platform → p.hours_on_platform ≤ 200 →
        validateForm p = none) ∧
    (∀ p q : StudentProfile, p.age = q.age →
        p.study_hours_weekly = q.study_hours_weekly →
        p.previous_gpa = q.previous_gpa →
        p.hours_on_platform = q.hours_on_platform →
        validateForm p = validateForm q) := by
  refine ⟨?_, ?_, ?_, ?_, ?_, ?_⟩
  · intro p h
    simp only [validateForm, if_pos h]
  · intro p h1 h2
    simp only [validateForm, if_neg h1, if_pos h2]
  · intro p h1 h2 h3
    simp only [validateForm, if_neg h1, if_neg h2, if_pos h3]
  · intro p h1 h2 h3 h4
    simp only [validateForm, if_neg h1, if_neg h2, if_neg h3, if_pos h4]
  · intro p a1 a2 s1 s2 g1 g2 hp1 hp2
    have na : ¬(p.age < 18 ∨ p.age > 25) := by
      rintro (h | h)
      · exact absurd h (not_lt.2 a1)
      · exact absurd h (not_lt.2 a2)
    have ns : ¬(p.study_hours_weekly < 5 ∨ p.study_hours_weekly > 40) := by
      rintro (h | h)
      · exact absurd h (not_lt.2 s1)
      · exact absurd h (not_lt.2 s2)
    have ng : ¬(p.previous_gpa < 5 ∨ p.previous_gpa > 10) := by
      rintro (h | h)
      · exact absurd h (not_lt.2 g1)
      · exact absurd h (not_lt.2 g2)
    have nh : ¬(p.hours_on_platform < 10 ∨ p.hours_on_platform > 200) := by
      rintro (h | h)
      · exact absurd h (not_lt.2 hp1)
      · exact absurd h (not_lt.2 hp2)
    simp only [validateForm, if_neg na, if_neg ns, if_neg ng, if_neg nh]
  · intro p q ha hs hg hh
    simp only [validateForm, ha, hs, hg, hh]

/-- Witness for C3: the High Performer sample passes validation, and the
default profile with age 17 fails with the age message. -/
theorem validateForm_spec_witness :
    validateForm inRangeProfile = none ∧
    validateForm profileAge17 = some "Age must be between 18-25" :=
  ⟨validateForm_spec.2.2.2.2.1 inRangeProfile (by decide) (by decide) (by decide)
      (by decide) (by decide) (by decide) (by decide) (by decide),
    validateForm_spec.1 profileAge17 (by decide)⟩

/-- Claim C4: when the submit button is enabled (not loading) and the
profile fails validation, the click reports the validation message through
the error cell, issues no network request, and leaves loading and any
stored PredictionResult untouched. -/
theorem handleSubmit_validation_failure (s : AppState) (p : StudentProfile)
    (msg : String) (hl : s.loading = false) (hv : validateForm p = some msg) :
    (submitRequested s p).2 = false ∧
    (submitRequested s p).1.error = some msg ∧
    (submitRequested s p).1.prediction = s.prediction ∧
    (submitRequested s p).1.loading = s.loading := by
  simp [submitRequested, hl, hv]

/-- Witness for C4: from a Success state holding a result, submitting the
default profile with age 17 reports the age message, issues no request, and
keeps the stored result. -/
theorem handleSubmit_validation_failure_witness :
    (submitRequested ⟨some sampleResult, false, none⟩ profileAge17).2 = false ∧
    (submitRequested ⟨some sampleResult, false, none⟩ profileAge17).1.error
      = some "Age must be between 18-25" ∧
    (submitRequested ⟨some sampleResult, false, none⟩ profileAge17).1.prediction
      = some sampleResult ∧
    (submitRequested ⟨some sampleResult, false, none⟩ profileAge17).1.loading
      = false :=
  handleSubmit_validation_failure ⟨some sampleResult, false, none⟩ profileAge17
    "Age must be between 18-25" rfl (by decide)

/-- Claim C6: getGradeDescription is total and maps the six known grades to
their descriptions, every other string to the generic fallback. -/
theorem getGradeDescription_spec :
    getGradeDescription "S" = "Outstanding Performance" ∧
    getGradeDescription "A" = "Excellent Work" ∧
    getGradeDescription "B" = "Good Performance" ∧
    getGradeDescription "C" = "Satisfactory" ∧
    getGradeDescription "D" = "Needs Improvement" ∧
    getGradeDescription "F" = "Requires Intervention" ∧
    ∀ g : String, g ≠ "S" → g ≠ "A" → g ≠ "B" → g ≠ "C" → g ≠ "D" →
      g ≠ "F" → getGradeDescription g = "Grade Predicted" := by
  refine ⟨rfl, rfl, rfl, rfl, rfl, rfl, ?_⟩
  intro g h1 h2 h3 h4 h5 h6
  simp [getGradeDescription, h1, h2, h3, h4, h5, h6]

/-- Witness for C6: the unrecognized grade Z maps to the fallback. -/
theorem getGradeDescription_spec_witness :
    getGradeDescription "Z" = "Grade Predicted" :=
  getGradeDescription_spec.2.2.2.2.2.2 "Z" (by decide) (by decide) (by decide)
    (by decide) (by decide) (by decide)

/-- Claim C7: getImpactWidth is total and returns 100, 70, 40, 70, 100 for
the five known tags and 40 for every unrecognized tag. -/
theorem getImpactWidth_spec :
    getImpactWidth "strong_positive" = 100 ∧
    getImpactWidth "positive" = 70 ∧
    getImpactWidth "neutral" = 40 ∧
    getImpactWidth "negative" = 70 ∧
    getImpactWidth "strong_negative" = 100 ∧
    ∀ t : String, t ≠ "strong_positive" → t ≠ "positive" → t ≠ "neutral" →
      t ≠ "negative" → t ≠ "strong_negative" → getImpactWidth t = 40 := by
  refine ⟨rfl, rfl, rfl, rfl, rfl, ?_⟩
  intro t h1 h2 h3 h4 h5
  simp [getImpactWidth, h1, h2, h3, h4, h5]

/-- Witness for C7: the unrecognized tag of the spec example maps to 40,
the neutral width. -/
theorem getImpactWidth_spec_witness :
    getImpactWidth "unknown_tag" = 40 ∧ getImpactWidth "unknown_tag" = getImpactWidth "neutral" :=
  ⟨getImpactWidth_spec.2.2.2.2.2 "unknown_tag" (by decide) (by decide)
      (by decide) (by decide) (by decide),
    getImpactWidth_spec.2.2.2.2.2 "unknown_tag" (by decide) (by decide)
      (by decide) (by decide) (by decide)⟩

/-- Claim C8: getRiskConfig is total, maps low to the Low Risk entry with
the performing-well description, medium to Medium Risk with the monitoring
description, high to High Risk with the intervention description, and every
unrecognized level to exactly the medium entry. -/
theorem getRiskConfig_spec :
    getRiskConfig "low" = lowRiskConfig ∧
    lowRiskConfig.label = "Low Risk" ∧
    lowRiskConfig.description = "Student is performing well" ∧
    getRiskConfig "medium" = mediumRiskConfig ∧
    mediumRiskConfig.label = "Medium Risk" ∧
    mediumRiskConfig.description = "Monitor student progress" ∧
    getRiskConfig "high" = highRiskConfig ∧
    highRiskConfig.label = "High Risk" ∧
    highRiskConfig.description = "Intervention recommended" ∧
    ∀ l : String, l ≠ "low" → l ≠ "medium" → l ≠ "high" →
      getRiskConfig l = getRiskConfig "medium" := by
  refine ⟨rfl, rfl, rfl, rfl, rfl, rfl, rfl, rfl, rfl, ?_⟩
  intro l h1 h2 h3
  simp [getRiskConfig, h1, h2, h3]

/-- Witness for C8: an unrecognized level gets exactly the medium entry. -/
theorem getRiskConfig_spec_witness :
    getRiskConfig "unknown" = getRiskConfig "medium" :=
  getRiskConfig_spec.2.2.2.2.2.2.2.2.2 "unknown" (by decide) (by decide)
    (by decide)

/-- Claim C9: from any non-loading state (the reset button is only rendered
in the non-loading results branch), handleReset clears both the stored
PredictionResult and the error, and the next render of the results column
is the landing view. -/
theorem handleReset_spec (s : AppState) (h : s.loading = false) :
    (handleReset s).prediction = none ∧
    (handleReset s).error = none ∧
    renderResults (handleReset s) = ResultsView.landing := by
  refine ⟨rfl, rfl, ?_⟩
  simp [renderResults, handleReset, h]

/-- Witness for C9: resetting a Success state holding a result and an error
clears both and renders the landing view. -/
theorem handleReset_spec_witness :
    (handleReset ⟨some sampleResult, false, some "old error"⟩).prediction = none ∧
    (handleReset ⟨some sampleResult, false, some "old error"⟩).error = none ∧
    renderResults (handleReset ⟨some sampleResult, false, some "old error"⟩)
      = ResultsView.landing :=
  handleReset_spec ⟨some sampleResult, false, some "old error"⟩ rfl

/-- Claim C10: when the recommendations prop is absent, null or the empty
array, RecommendationList renders its no-data card, and when the impacts
prop is absent, null or an object with no keys, FeatureChart renders its
no-data card; both renderers are total functions. -/
theorem empty_guards_spec (recs : Option (List String))
    (imps : Option (List (String × String)))
    (hr : recs = none ∨ recs = some [])
    (hi : imps = none ∨ imps = some []) :
    renderRecommendationList recs = RecListView.fallbackCard ∧
    renderFeatureChart imps = FeatureChartView.fallbackCard := by
  constructor
  · rcases hr with h | h <;> simp [renderRecommendationList, h]
  · rcases hi with h | h <;> simp [renderFeatureChart, h]

/-- Witness for C10: empty recommendations and absent impacts both render
the fallback cards. -/
theorem empty_guards_spec_witness :
    renderRecommendationList (some []) = RecListView.fallbackCard ∧
    renderFeatureChart none = FeatureChartView.fallbackCard :=
  empty_guards_spec (some []) none (Or.inr rfl) (Or.inl rfl)

/-- Helper: the finally clause always clears loading after a fetch
settles. -/
theorem requestCompleted_loading (s : AppState) (o : FetchOutcome) :
    (requestCompleted s o).loading = false := by
  cases o <;> rfl

/-- Helper: one controller step preserves the correspondence between the
number of in-flight requests and the loading flag. -/
theorem runStep_flight (s : AppState) (n : Nat) (e : AppEvent)
    (h : n = if s.loading then 1 else 0) :
    (runStep (s, n) e).2 = if (runStep (s, n) e).1.loading then 1 else 0 := by
  cases e with
  | submit p =>
      by_cases hl : s.loading
      · simp [runStep, submitRequested, hl, h]
      · rcases hv : validateForm p with _ | msg
        · simp [runStep, submitRequested, hl, hv, h]
        · simp [runStep, submitRequested, hl, hv, h]
  | complete o =>
      by_cases hl : s.loading
      · simp [runStep, hl, h, requestCompleted_loading]
      · simp [runStep, hl, h]

/-- Helper: along any event sequence the in-flight count stays equal to
the loading indicator, provided it starts that way. -/
theorem foldl_flight (events : List AppEvent) :
    ∀ (s : AppState) (n : Nat), n = (if s.loading then 1 else 0) →
      (events.foldl runStep (s, n)).2
        = if (events.foldl runStep (s, n)).1.loading then 1 else 0 := by
  induction events with
  | nil =>
      intro s n h
      simpa using h
  | cons e rest ih =>
      intro s n h
      have h2 := runStep_flight s n e h
      rcases hrs : runStep (s, n) e with ⟨s2, n2⟩
      rw [hrs] at h2
      simp only [List.foldl_cons, hrs]
      exact ih s2 n2 h2

/-- Claim C2: a submit click while a request is already in flight (loading
true, so the button is disabled) leaves the state unchanged and issues no
second request; and along every event sequence from the initial state at
most one request is ever in flight. -/
theorem single_flight_spec :
    (∀ (s : AppState) (p : StudentProfile), s.loading = true →
        submitRequested s p = (s, false)) ∧
    (∀ events : List AppEvent, (runEvents events).2 ≤ 1) := by
  constructor
  · intro s p h
    simp [submitRequested, h]
  · intro events
    have h := foldl_flight events initState 0 rfl
    rw [runEvents, h]
    split <;> decide

/-- Witness for C2: a submit while loading is a no-op, and a double submit
from the initial state leaves at most one request in flight. -/
theorem single_flight_spec_witness :
    submitRequested ⟨none, true, none⟩ inRangeProfile
      = (⟨none, true, none⟩, false) ∧
    (runEvents [AppEvent.submit inRangeProfile,
        AppEvent.submit inRangeProfile]).2 ≤ 1 :=
  ⟨single_flight_spec.1 ⟨none, true, none⟩ inRangeProfile rfl,
    single_flight_spec.2
      [AppEvent.submit inRangeProfile, AppEvent.submit inRangeProfile]⟩

/-- Claim C1 is false on the code: after a Success run stored a result, a
submission ending in a Prediction Client error stores the error message but
does NOT discard the prior PredictionResult - the catch branch never
touches the prediction cell - so the results column keeps rendering the
old Success cards rather than falling back to the landing view. -/
theorem error_keeps_stale_result_counterexample :
    (requestCompleted ⟨some sampleResult, true, none⟩
        (FetchOutcome.httpError (some "Invalid input"))).error
      = some "Invalid input" ∧
    (requestCompleted ⟨some sampleResult, true, none⟩
        (FetchOutcome.httpError (some "Invalid input"))).prediction
      = some sampleResult ∧
    renderResults (requestCompleted ⟨some sampleResult, true, none⟩
        (FetchOutcome.httpError (some "Invalid input")))
      = ResultsView.results sampleResult ∧
    ResultsView.results sampleResult ≠ ResultsView.landing :=
  ⟨rfl, rfl, rfl, fun h => ResultsView.noConfusion h⟩

/-- Claim C1 amended: when a submission ends in a Prediction Client error,
the controller stores the error message but RETAINS any prior stored
PredictionResult, and the results column still renders the prior Success
cards (not the empty/landing view) alongside the new error. -/
theorem error_retains_result_amended (s : AppState) (r : PredictionResult)
    (hp : s.prediction = some r) (e : Option String) (m : String) :
    (requestCompleted s (FetchOutcome.httpError e)).error
      = some (jsOrString e "Prediction failed") ∧
    (requestCompleted s (FetchOutcome.httpError e)).prediction = some r ∧
    renderResults (requestCompleted s (FetchOutcome.httpError e))
      = ResultsView.results r ∧
    (requestCompleted s (FetchOutcome.transportError m)).error
      = some (jsOrString (some m) "Failed to connect to API") ∧
    (requestCompleted s (FetchOutcome.transportError m)).prediction = some r ∧
    renderResults (requestCompleted s (FetchOutcome.transportError m))
      = ResultsView.results r := by
  refine ⟨rfl, ?_, ?_, rfl, ?_, ?_⟩
  · simp [requestCompleted, hp]
  · simp [renderResults, requestCompleted, hp]
  · simp [requestCompleted, hp]
  · simp [renderResults, requestCompleted, hp]

/-- Witness for C1 amended: concrete Success state, concrete service error
and concrete transport error. -/
theorem error_retains_result_amended_witness :
    (requestCompleted ⟨some sampleResult, true, none⟩
        (FetchOutcome.httpError (some "Invalid input"))).error
      = some (jsOrString (some "Invalid input") "Prediction failed") ∧
    (requestCompleted ⟨some sampleResult, true, none⟩
        (FetchOutcome.httpError (some "Invalid input"))).prediction
      = some sampleResult ∧
    renderResults (requestCompleted ⟨some sampleResult, true, none⟩
        (FetchOutcome.httpError (some "Invalid input")))
      = ResultsView.results sampleResult ∧
    (requestCompleted ⟨some sampleResult, true, none⟩
        (FetchOutcome.transportError "Failed to fetch")).error
      = some (jsOrString (some "Failed to fetch") "Failed to connect to API") ∧
    (requestCompleted ⟨some sampleResult, true, none⟩
        (FetchOutcome.transportError "Failed to fetch")).prediction
      = some sampleResult ∧
    renderResults (requestCompleted ⟨some sampleResult, true, none⟩
        (FetchOutcome.transportError "Failed to fetch"))
      = ResultsView.results sampleResult :=
  error_retains_result_amended ⟨some sampleResult, true, none⟩ sampleResult
    rfl (some "Invalid input") "Failed to fetch"

/-- Claim C5 is false on the code: on a transport failure the catch stores
err.message whenever it is nonempty, so the raw transport exception text
(here the browser message for an unreachable endpoint) reaches the user
instead of the generic connectivity message. -/
theorem transport_message_leak_counterexample :
    (requestCompleted initState
        (FetchOutcome.transportError "Failed to fetch")).error
      = some "Failed to fetch" ∧
    some "Failed to fetch" ≠ some "Failed to connect to API" :=
  ⟨rfl, by decide⟩

/-- Claim C5 amended: on a transport failure the surfaced message is the
transport exception message itself whenever that message is nonempty; the
generic connectivity literal is used only when the message is empty. On a
non-2xx response the service error field is surfaced verbatim when present
and nonempty, else the generic prediction-failed literal. -/
theorem requestCompleted_error_amended (s : AppState) (m : String)
    (e : Option String) :
    (requestCompleted s (FetchOutcome.transportError m)).error
      = some (if m = "" then "Failed to connect to API" else m) ∧
    (requestCompleted s (FetchOutcome.httpError e)).error
      = some (match e with
              | some t => if t = "" then "Prediction failed" else t
              | none => "Prediction failed") := by
  constructor
  · rfl
  · rcases e with _ | t <;> rfl
